import Mathlib

/-!
# EdgeLink core: shallow embedding and verification

Shallow embedding of the EdgeLink proxy-management core (config generation,
proxy registry, process supervision, binary acquisition, log retention) in
Lean 4, with theorems settling the specification claims about it.

JavaScript idioms are modelled as follows: absent object fields are `Option`
values (`none` = `undefined`); JS truthiness of strings/numbers is made
explicit by `jsTruthyStr`/`jsTruthyJ`; `a || b` on strings is `jsOrStr`;
loosely-typed JSON fragments are `JVal`; `Object.assign` is `jsAssign`.
Asynchronous sequences with fallible steps are modelled as explicit state
passing, with a record of booleans choosing which step fails on a given run.
-/

set_option autoImplicit false
set_option maxRecDepth 4000
set_option maxHeartbeats 1000000

namespace EdgeLink

/-- JSON-like value for the loosely typed parts of the configuration. -/
inductive JVal where
  | str (s : String)
  | num (n : Int)
  | bool (b : Bool)
  | obj (fields : List (String × JVal))
  | arr (elems : List JVal)

/-- JS truthiness for an optional string field (`undefined` and `""` are falsy). -/
def jsTruthyStr : Option String → Bool
  | some s => s ≠ ""
  | none => false

/-- JS truthiness of a `JVal` (`""`, `0` and `false` are falsy; objects and arrays are truthy). -/
def jsTruthyJ : JVal → Bool
  | JVal.str s => s ≠ ""
  | JVal.num n => n ≠ 0
  | JVal.bool b => b
  | JVal.obj _ => true
  | JVal.arr _ => true

/-- JS `a || b` on two optional string fields. -/
def jsOrStr (a b : Option String) : Option String :=
  if jsTruthyStr a then a else b

/-- JS `a || d` where `d` is a present default string. -/
def jsOrStrD (a : Option String) (d : String) : String :=
  match a with
  | some s => if s = "" then d else s
  | none => d

/-- JS `a || d` on a loosely typed field with default `d`. -/
def jsOrJ (a : Option JVal) (d : JVal) : JVal :=
  match a with
  | some v => if jsTruthyJ v then v else d
  | none => d

/-- JS `Object.assign(target, source)`: every key of `source` overrides the
corresponding key of `target`; keys keep their positions, new keys are appended. -/
def jsAssign (target source : List (String × JVal)) : List (String × JVal) :=
  (target.map (fun p =>
    match source.lookup p.1 with
    | some v => (p.1, v)
    | none => p))
  ++ source.filter (fun q => (target.lookup q.1).isNone)

/-! ### Structural string utilities

Core `String` functions such as `splitOn`, `toLower`, `trim` and `toNat?` are
defined by well-founded recursion on byte positions, which the kernel cannot
evaluate, so the string operations the source needs are re-implemented here by
structural recursion on the character list; every definition below evaluates
under `decide` and `rfl`. -/

/-- `[0-9]`. -/
def isAsciiDigit (c : Char) : Bool := '0' ≤ c && c ≤ '9'

/-- `[a-zA-Z0-9]`. -/
def isAsciiAlnum (c : Char) : Bool :=
  isAsciiDigit c || ('a' ≤ c && c ≤ 'z') || ('A' ≤ c && c ≤ 'Z')

/-- `[0-9a-f]` (lower case; callers lower-case first for the `/i` regex flag). -/
def isLowerHexDigit (c : Char) : Bool := isAsciiDigit c || ('a' ≤ c && c ≤ 'f')

/-- Split a character list at every occurrence of a separator character. -/
def charListSplit (sep : Char) (acc : List Char) : List Char → List (List Char)
  | [] => [acc.reverse]
  | c :: cs =>
    if c = sep then acc.reverse :: charListSplit sep [] cs
    else charListSplit sep (c :: acc) cs

/-- JS `s.split(sep)` for a single-character separator. -/
def jsSplitOnChar (s : String) (sep : Char) : List String :=
  (charListSplit sep [] s.data).map String.mk

/-- Does the text begin with the pattern? -/
def startsWithChars : List Char → List Char → Bool
  | [], _ => true
  | _ :: _, [] => false
  | p :: ps, c :: cs => p = c && startsWithChars ps cs

/-- Does the text contain the pattern as a contiguous substring? -/
def containsChars (pat : List Char) : List Char → Bool
  | [] => startsWithChars pat []
  | c :: cs => startsWithChars pat (c :: cs) || containsChars pat cs

/-- JS `s.includes(pattern)`. -/
def jsIncludes (s pattern : String) : Bool :=
  containsChars pattern.data s.data

/-- ASCII lower-casing of one character (all inputs of interest are ASCII). -/
def asciiToLower (c : Char) : Char :=
  if 'A' ≤ c && c ≤ 'Z' then Char.ofNat (c.toNat + 32) else c

/-- JS `s.toLowerCase()` on ASCII text. -/
def jsToLowerCase (s : String) : String :=
  String.mk (s.data.map asciiToLower)

/-- JS whitespace for `trim` (the forms that occur in engine output). -/
def isJsWhitespace (c : Char) : Bool :=
  c = ' ' || c = '\t' || c = '\n' || c = '\r'

/-- JS `s.trim()`. -/
def jsTrim (s : String) : String :=
  String.mk (((s.data.dropWhile isJsWhitespace).reverse.dropWhile isJsWhitespace).reverse)

/-- The character `0`, the base point of decimal digit values. -/
def zeroChar : Char := Char.ofNat 48

/-- The numeric value of a decimal digit string. -/
def decDigitsVal (cs : List Char) : Nat :=
  cs.foldl (fun acc c => acc * 10 + (c.toNat - Char.toNat zeroChar)) 0

/-- The `streamSettings` object of a user-facing proxy descriptor
(src/config-manager.js `createStreamSettings` input).  All fields optional,
as in the JS object. -/
structure StreamConfig where
  network : Option String := none
  security : Option String := none
  serverName : Option String := none
  /-- a `streamSettings.address` field; `createStreamSettings` reads it as the
  `serverName` fallback (`streamConfig.serverName || streamConfig.address`). -/
  address : Option String := none
  /-- the user's explicit `allowInsecure` choice; note the generator ignores it. -/
  allowInsecure : Option Bool := none
  fingerprint : Option String := none
  alpn : Option JVal := none
  path : Option String := none
  host : Option String := none
  headers : Option JVal := none
  serviceName : Option String := none
  mode : Option String := none
  xPaddingBytes : Option JVal := none
  noGRPCHeader : Option JVal := none
  noSSEHeader : Option JVal := none
  scMaxEachPostBytes : Option JVal := none
  scMinPostsIntervalMs : Option JVal := none
  scMaxBufferedPosts : Option JVal := none
  scStreamUpServerSecs : Option JVal := none
  enableXMUX : Option Bool := none
  maxConcurrency : Option JVal := none
  maxConnections : Option JVal := none
  cMaxReuseTimes : Option JVal := none
  hMaxRequestTimes : Option JVal := none
  hMaxReusableSecs : Option JVal := none
  hKeepAlivePeriod : Option JVal := none
  downloadSettings : Option JVal := none
  extra : Option (List (String × JVal)) := none

/-- A user-facing proxy descriptor (the object validated by the validators and
consumed by `ConfigManager.generateConfig`).  Ports are numeric in every caller,
so they are modelled as `Option Int` (`none` = field absent). -/
structure ProxyConfig where
  name : Option String := none
  address : Option String := none
  port : Option Int := none
  localPort : Option Int := none
  protocol : String := ""
  userId : Option String := none
  password : Option String := none
  security : Option String := none
  network : Option String := none
  listen : Option String := none
  tag : Option String := none
  streamSettings : Option StreamConfig := none

/-- `tlsSettings` of a generated stream-settings block. -/
structure TlsSettings where
  serverName : Option String
  allowInsecure : Bool
  fingerprint : Option String := none
  alpn : Option JVal := none

/-- `wsSettings` of a generated stream-settings block. -/
structure WsSettings where
  path : String
  headers : JVal

/-- `httpSettings` (HTTP/2) of a generated stream-settings block. -/
structure HttpSettings where
  path : String
  host : List String

/-- `grpcSettings` of a generated stream-settings block. -/
structure GrpcSettings where
  serviceName : String

/-- `xhttpSettings` of a generated stream-settings block. -/
structure XhttpSettings where
  host : Option String
  mode : String
  path : String
  extra : List (String × JVal)

/-- A generated `streamSettings` block (output of `createStreamSettings`). -/
structure StreamSettingsOut where
  network : String
  security : Option String := none
  tlsSettings : Option TlsSettings := none
  wsSettings : Option WsSettings := none
  httpSettings : Option HttpSettings := none
  grpcSettings : Option GrpcSettings := none
  xhttpSettings : Option XhttpSettings := none

/-- One user entry of a vnext target. -/
structure XrayUser where
  id : String
  encryption : Option String := none
  security : Option String := none

/-- One upstream target of a VLESS/VMess outbound. -/
structure VnextServer where
  address : Option String
  port : Option Int
  users : List XrayUser

/-- One upstream target of a Trojan outbound. -/
structure TrojanServer where
  address : Option String
  port : Option Int
  password : Option String

/-- The `settings` object of an outbound (protocol dependent). -/
inductive OutboundSettings where
  | vnext (servers : List VnextServer)
  | servers (list : List TrojanServer)

/-- A generated outbound entry. -/
structure Outbound where
  protocol : String
  settings : OutboundSettings
  streamSettings : Option StreamSettingsOut := none

/-- The `settings` object of the generated dokodemo-door inbound. -/
structure InboundSettings where
  address : Option String
  port : Option Int
  network : String

/-- A generated inbound entry. -/
structure Inbound where
  listen : String
  port : Option Int
  protocol : String
  tag : String
  settings : InboundSettings

/-- The `log` block of the generated engine config. -/
structure LogConfig where
  loglevel : String

/-- A full generated engine (XRay) configuration. -/
structure XRayConfig where
  log : LogConfig
  inbounds : List Inbound
  outbounds : List Outbound

namespace ConfigManager

/-- src/config-manager.js `createBaseConfig`. -/
def createBaseConfig : XRayConfig :=
  { log := { loglevel := "info" }, inbounds := [], outbounds := [] }

/-- src/config-manager.js `createStreamSettings`.  Note the source forces
`security` to `"tls"` and hard-codes `allowInsecure: true` whenever
`security === "tls" || !security`. -/
def createStreamSettings (streamConfig : StreamConfig) : StreamSettingsOut :=
  let settings : StreamSettingsOut := { network := jsOrStrD streamConfig.network "tcp" }
  let settings :=
    if streamConfig.security = some "tls" || !(jsTruthyStr streamConfig.security) then
      { settings with
        security := some "tls"
        tlsSettings := some {
            serverName := jsOrStr streamConfig.serverName streamConfig.address
            allowInsecure := true
            fingerprint := if jsTruthyStr streamConfig.fingerprint then streamConfig.fingerprint else none
            alpn :=
              match streamConfig.alpn with
              | some v => if jsTruthyJ v then some v else none
              | none => none } }
    else settings
  let settings :=
    if streamConfig.network = some "ws" then
      { settings with wsSettings := some {
          path := jsOrStrD streamConfig.path "/"
          headers := jsOrJ streamConfig.headers (JVal.obj []) } }
    else settings
  let settings :=
    if streamConfig.network = some "h2" then
      { settings with httpSettings := some {
          path := jsOrStrD streamConfig.path "/"
          host :=
              match streamConfig.host with
              | some h => if h ≠ "" then [h] else []
              | none => [] } }
    else settings
  let settings :=
    if streamConfig.network = some "grpc" then
      { settings with grpcSettings := some { serviceName := jsOrStrD streamConfig.serviceName "" } }
    else settings
  let settings :=
    if streamConfig.network = some "xhttp" then
      let extra : List (String × JVal) :=
        [("headers", jsOrJ streamConfig.headers (JVal.obj []))
        , ("xPaddingBytes", jsOrJ streamConfig.xPaddingBytes (JVal.str "100-1000"))
        , ("noGRPCHeader", jsOrJ streamConfig.noGRPCHeader (JVal.bool false))
        , ("noSSEHeader", jsOrJ streamConfig.noSSEHeader (JVal.bool false))
        , ("scMaxEachPostBytes", jsOrJ streamConfig.scMaxEachPostBytes (JVal.num 1000000))
        , ("scMinPostsIntervalMs", jsOrJ streamConfig.scMinPostsIntervalMs (JVal.str "0-100"))
        , ("scMaxBufferedPosts", jsOrJ streamConfig.scMaxBufferedPosts (JVal.num 30))
        , ("scStreamUpServerSecs", jsOrJ streamConfig.scStreamUpServerSecs (JVal.str "20-80"))]
      let extra :=
        if streamConfig.enableXMUX ≠ some false then
          extra ++ [("xmux", JVal.obj
            [("maxConcurrency", jsOrJ streamConfig.maxConcurrency (JVal.str "16-32"))
            , ("maxConnections", jsOrJ streamConfig.maxConnections (JVal.num 0))
            , ("cMaxReuseTimes", jsOrJ streamConfig.cMaxReuseTimes (JVal.num 0))
            , ("hMaxRequestTimes", jsOrJ streamConfig.hMaxRequestTimes (JVal.str "600-900"))
            , ("hMaxReusableSecs", jsOrJ streamConfig.hMaxReusableSecs (JVal.str "1800-3000"))
            , ("hKeepAlivePeriod", jsOrJ streamConfig.hKeepAlivePeriod (JVal.num 0))])]
        else extra
      let extra :=
        match streamConfig.downloadSettings with
        | some ds => if jsTruthyJ ds then extra ++ [("downloadSettings", ds)] else extra
        | none => extra
      let extra :=
        match streamConfig.extra with
        | some user => jsAssign extra user
        | none => extra
      { settings with xhttpSettings := some {
          host := streamConfig.host
          mode := jsOrStrD streamConfig.mode "auto"
          path := jsOrStrD streamConfig.path "/mcproxy"
          extra := extra } }
    else settings
  settings

/-- src/config-manager.js `createVLESSOutbound`.  `freshUUID` is the value
`this.generateUUID()` would produce, used only when `userId` is falsy. -/
def createVLESSOutbound (config : ProxyConfig) (freshUUID : String) : Outbound :=
  let outbound : Outbound :=
    { protocol := "vless"
      settings := OutboundSettings.vnext
        [{ address := config.address
           port := config.port
           users := [{ id := jsOrStrD config.userId freshUUID, encryption := some "none" }] }] }
  match config.streamSettings with
  | some sc => { outbound with streamSettings := some (createStreamSettings sc) }
  | none => outbound

/-- src/config-manager.js `createVMessOutbound`. -/
def createVMessOutbound (config : ProxyConfig) (freshUUID : String) : Outbound :=
  let outbound : Outbound :=
    { protocol := "vmess"
      settings := OutboundSettings.vnext
        [{ address := config.address
           port := config.port
           users := [{ id := jsOrStrD config.userId freshUUID
                       security := some (jsOrStrD config.security "auto") }] }] }
  match config.streamSettings with
  | some sc => { outbound with streamSettings := some (createStreamSettings sc) }
  | none => outbound

/-- src/config-manager.js `createTrojanOutbound`. -/
def createTrojanOutbound (config : ProxyConfig) : Outbound :=
  let outbound : Outbound :=
    { protocol := "trojan"
      settings := OutboundSettings.servers
        [{ address := config.address, port := config.port, password := config.password }] }
  match config.streamSettings with
  | some sc => { outbound with streamSettings := some (createStreamSettings sc) }
  | none => outbound

/-- src/config-manager.js `createInbound`: always a dokodemo-door listener on
`localPort` forwarding to the descriptor's remote `address`/`port`. -/
def createInbound (config : ProxyConfig) : Inbound :=
  { listen := jsOrStrD config.listen "127.0.0.1"
    port := config.localPort
    protocol := "dokodemo-door"
    tag := jsOrStrD config.tag "proxy-in"
    settings := { address := config.address, port := config.port, network := "tcp" } }

/-- The in-place mutation `generateConfig` performs on the descriptor's
`streamSettings` object (creating it if absent): `network`, `security`,
`mode` and `path` are overwritten with fixed values. -/
def forceStreamDefaults (sc : StreamConfig) : StreamConfig :=
  { sc with
    network := some "xhttp"
    security := some "tls"
    mode := some "auto"
    path := some "/mcproxy" }

/-- src/config-manager.js `generateConfig`.  The JS function mutates its
argument (it overwrites `proxyConfig.streamSettings`), so the embedding
returns the descriptor as left after the call together with the result.
`freshUUID` stands for the `uuidv4()` the generator would draw if it needs one. -/
def generateConfig (proxyConfig : ProxyConfig) (freshUUID : String) :
    ProxyConfig × Except String XRayConfig :=
  let config := createBaseConfig
  let streamSettings := forceStreamDefaults (proxyConfig.streamSettings.getD {})
  let proxyConfig := { proxyConfig with streamSettings := some streamSettings }
  let inbound := createInbound proxyConfig
  let config := { config with inbounds := config.inbounds ++ [inbound] }
  let proto := jsToLowerCase proxyConfig.protocol
  if proto = "vless" then
    (proxyConfig, Except.ok
      { config with outbounds := config.outbounds ++ [createVLESSOutbound proxyConfig freshUUID] })
  else if proto = "vmess" then
    (proxyConfig, Except.ok
      { config with outbounds := config.outbounds ++ [createVMessOutbound proxyConfig freshUUID] })
  else if proto = "trojan" then
    (proxyConfig, Except.ok
      { config with outbounds := config.outbounds ++ [createTrojanOutbound proxyConfig] })
  else
    (proxyConfig, Except.error ("不支持的协议类型: " ++ proxyConfig.protocol))

end ConfigManager

namespace XRayDownloader

/-- JS `Number(s)` followed by `|| 0` as applied to one dot-separated version
field: a field that is not a (nonnegative) decimal numeral collapses to `0`
(`NaN || 0` and `Number("") = 0`). -/
def jsNumberField (s : String) : Int :=
  match s.data with
  | [] => 0
  | cs => if cs.all isAsciiDigit then (decDigitsVal cs : Int) else 0

/-- The comparison loop once the left version has run out of fields: the left
field is `0`, the first nonzero right field decides. -/
def comparePartsRight : List Int → Int
  | [] => 0
  | y :: ys =>
    if (0 : Int) > y then 1 else if (0 : Int) < y then -1 else comparePartsRight ys

/-- The comparison loop once the right version has run out of fields. -/
def comparePartsLeft : List Int → Int
  | [] => 0
  | x :: xs =>
    if x > 0 then 1 else if x < 0 then -1 else comparePartsLeft xs

/-- The field-by-field comparison loop of `compareVersions`: missing fields
count as `0`, the first differing field decides. -/
def compareParts : List Int → List Int → Int
  | [], ys => comparePartsRight ys
  | x :: xs, [] =>
    if x > 0 then 1 else if x < 0 then -1 else comparePartsLeft xs
  | x :: xs, y :: ys =>
    if x > y then 1 else if x < y then -1 else compareParts xs ys

/-- src/unnamed/part_000 `compareVersions`: numeric dot-separated comparison,
missing fields treated as 0; returns 1 / -1 / 0. -/
def compareVersions (version1 version2 : String) : Int :=
  compareParts ((jsSplitOnChar version1 '.').map jsNumberField)
    ((jsSplitOnChar version2 '.').map jsNumberField)

end XRayDownloader

/-! ## Validators

Both validator snapshots (src/unnamed/part_005, the `utils/validator` used by
the proxy manager, and src/unnamed/part_007) use the same regular expressions
for IPv4 literals, DNS-style domains and UUIDs.  The regexes are anchored and
their alternatives cannot match a separator, so they are embedded as decidable
predicates over the separator-split parts. -/

/-- One IPv4 octet: `25[0-5]|2[0-4][0-9]|[01]?[0-9][0-9]?`. -/
def octetMatch (s : String) : Bool :=
  match s.toList with
  | [a] => isAsciiDigit a
  | [a, b] => isAsciiDigit a && isAsciiDigit b
  | [a, b, c] =>
    ((a = '0' || a = '1') && isAsciiDigit b && isAsciiDigit c)
    || (a = '2' && ('0' ≤ b && b ≤ '4') && isAsciiDigit c)
    || (a = '2' && b = '5' && ('0' ≤ c && c ≤ '5'))
  | _ => false

/-- One domain label: `[a-zA-Z0-9](?:[a-zA-Z0-9-]{0,61}[a-zA-Z0-9])?`. -/
def labelMatch (s : String) : Bool :=
  match s.toList with
  | [] => false
  | [a] => isAsciiAlnum a
  | a :: rest =>
    isAsciiAlnum a
    && rest.dropLast.length ≤ 61
    && rest.dropLast.all (fun c => isAsciiAlnum c || c = '-')
    && (match rest.getLast? with
        | some z => isAsciiAlnum z
        | none => false)

/-- `isValidIP`: the anchored IPv4 regex of both validator files. -/
def isValidIP (ip : String) : Bool :=
  let parts := jsSplitOnChar ip '.'
  parts.length = 4 && parts.all octetMatch

/-- `isValidDomain`: the anchored domain regex of both validator files. -/
def isValidDomain (domain : String) : Bool :=
  (jsSplitOnChar domain '.').all labelMatch

/-- `isValidUUID`: `^[0-9a-f]{8}-[0-9a-f]{4}-[1-5][0-9a-f]{3}-[89ab][0-9a-f]{3}-[0-9a-f]{12}$/i`. -/
def isValidUUID (uuid : String) : Bool :=
  let s := jsToLowerCase uuid
  match jsSplitOnChar s '-' with
  | [a, b, c, d, e] =>
    (a.length = 8 && a.toList.all isLowerHexDigit)
    && (b.length = 4 && b.toList.all isLowerHexDigit)
    && (c.length = 4 && c.toList.all isLowerHexDigit
        && (match c.toList with
            | x :: _ => '1' ≤ x && x ≤ '5'
            | [] => false))
    && (d.length = 4 && d.toList.all isLowerHexDigit
        && (match d.toList with
            | x :: _ => x = '8' || x = '9' || x = 'a' || x = 'b'
            | [] => false))
    && (e.length = 12 && e.toList.all isLowerHexDigit)
  | _ => false

/-- `{valid/isValid, errors}` result object of the validators. -/
structure ValidationResult where
  isValid : Bool
  errors : List String

namespace ConfigValidator

/-! Embedding of src/unnamed/part_005 (`utils/validator.js`), the
`ConfigValidator` that `proxy-manager.js` and `config-manager.js` require. -/

/-- part_005 `isValidPort`: `parseInt` then range check; an absent field gives
`NaN` and fails.  (Ports are numeric at every call site, so `parseInt` of a
present field is the number itself.) -/
def isValidPort (port : Option Int) : Bool :=
  match port with
  | some n => 1 ≤ n && n ≤ 65535
  | none => false

/-- part_005 `isValidProtocol` (note: wider set than the generator supports). -/
def isValidProtocol (protocol : String) : Bool :=
  ["vless", "vmess", "trojan", "shadowsocks", "socks", "http"].contains (jsToLowerCase protocol)

/-- part_005 `isValidNetwork`. -/
def isValidNetwork (network : String) : Bool :=
  ["tcp", "udp", "ws", "h2", "grpc", "xhttp"].contains (jsToLowerCase network)

/-- part_005 `isValidSecurity`. -/
def isValidSecurity (security : String) : Bool :=
  ["none", "tls", "reality"].contains (jsToLowerCase security)

/-- part_005 `validateProxyConfig`: collects every violated rule (sequential
`errors.push` calls become list concatenation in source order) and never
throws.  `Number.isInteger` holds for every representable port, so only the
falsy/range parts of the port rules remain. -/
def validateProxyConfig (config : ProxyConfig) : ValidationResult :=
  let errors : List String :=
    (match config.address with
     | none => ["远程地址不能为空"]
     | some a =>
       if a = "" then ["远程地址不能为空"]
       else if !(isValidIP a) && !(isValidDomain a) then ["远程地址格式无效"]
       else [])
    ++ (match config.port with
        | none => ["远程端口不能为空"]
        | some p =>
          if p = 0 then ["远程端口不能为空"]
          else if !(isValidPort (some p)) then ["远程端口无效（1-65535）"]
          else [])
    ++ (match config.localPort with
        | none => ["本地端口不能为空"]
        | some p =>
          if p = 0 then ["本地端口不能为空"]
          else if !(isValidPort (some p)) then ["本地端口无效（1-65535）"]
          else [])
    ++ (if config.protocol = "" then ["协议类型不能为空"]
        else if !(isValidProtocol config.protocol) then ["不支持的协议类型"]
        else [])
    ++ (if ["vless", "vmess"].contains config.protocol then
          match config.userId with
          | some uid =>
            if uid ≠ "" && !(isValidUUID uid) then ["用户ID格式无效（需要UUID格式）"] else []
          | none => []
        else [])
    ++ (match config.network with
        | some n => if n ≠ "" && !(isValidNetwork n) then ["不支持的网络类型"] else []
        | none => [])
    ++ (match config.security with
        | some s => if s ≠ "" && !(isValidSecurity s) then ["不支持的安全类型"] else []
        | none => [])
  { isValid := errors.isEmpty, errors := errors }

end ConfigValidator

namespace ConfigValidatorRoot

/-! Embedding of src/unnamed/part_007, the second `ConfigValidator` snapshot.
Its `validateProxyConfig` wraps the checks in try/catch and returns a result
object either way, so the embedding is a total function.  The `typeof x !==
'string'` parts of the rules cannot fire in the typed model. -/

/-- part_007 `validateStreamSettings`. -/
def validateStreamSettings (streamSettings : StreamConfig) : List String :=
  (match streamSettings.network with
   | some n =>
     if n ≠ "" && !(["tcp", "ws", "h2", "grpc", "xhttp"].contains n) then
       ["传输协议必须是 tcp、ws、h2、grpc 或 xhttp"]
     else []
   | none => [])
  ++ (match streamSettings.security with
      | some s =>
        if s ≠ "" && !(["none", "tls", "reality"].contains s) then
          ["安全类型必须是 none、tls 或 reality"]
        else []
      | none => [])

/-- part_007 `validateProxyConfig`: same all-violations-in-one-pass shape, with
name/password rules and exact-case protocol matching. -/
def validateProxyConfig (config : ProxyConfig) : ValidationResult :=
  let errors : List String :=
    (if !(jsTruthyStr config.name) then ["代理名称不能为空"] else [])
    ++ (if !(jsTruthyStr config.address) then ["服务器地址不能为空"] else [])
    ++ (match config.port with
        | none => ["端口号必须是1-65535之间的整数"]
        | some p =>
          if p = 0 || p < 1 || p > 65535 then ["端口号必须是1-65535之间的整数"] else [])
    ++ (match config.localPort with
        | none => ["本地端口必须是1-65535之间的整数"]
        | some p =>
          if p = 0 || p < 1 || p > 65535 then ["本地端口必须是1-65535之间的整数"] else [])
    ++ (if config.protocol = "" || !(["vless", "vmess", "trojan"].contains config.protocol) then
          ["协议类型必须是 vless、vmess 或 trojan"]
        else [])
    ++ (if config.protocol = "vless" || config.protocol = "vmess" then
          match config.userId with
          | none => ["VLESS/VMess 协议需要有效的用户ID (UUID)"]
          | some uid =>
            if uid = "" then ["VLESS/VMess 协议需要有效的用户ID (UUID)"]
            else if !(isValidUUID uid) then ["用户ID必须是有效的UUID格式"]
            else []
        else [])
    ++ (if config.protocol = "trojan" then
          if !(jsTruthyStr config.password) then ["Trojan 协议需要密码"] else []
        else [])
    ++ (match config.streamSettings with
        | some ss => validateStreamSettings ss
        | none => [])
  { isValid := errors.isEmpty, errors := errors }

end ConfigValidatorRoot

namespace ProcessManager

/-! Embedding of src/unnamed/part_001 `ProcessManager.startProxy`.  The live
map `this.processes` is modelled by its ordered list of keys (`Map.set`
appends, `Map.delete` removes).  `configExists` is the result of
`fs.pathExists(configPath)`; `exitsDuringGrace` says whether the spawned
process exits before the 2-second confirmation window.  The `catch` block of
the source runs `this.processes.delete(name)` before rethrowing on EVERY
failure path, including the "already running" rejection. -/

/-- src/unnamed/part_001 `startProxy`: returns the live map after the call and
whether the call succeeded. -/
def startProxy (processes : List String) (name : String)
    (configExists : Bool) (exitsDuringGrace : Bool) : List String × Bool :=
  if !configExists then
    (processes.filter (fun n => n ≠ name), false)
  else if processes.contains name then
    (processes.filter (fun n => n ≠ name), false)
  else
    let processes := processes ++ [name]
    if exitsDuringGrace then
      (processes.filter (fun n => n ≠ name), false)
    else
      (processes, true)

end ProcessManager

namespace ProxyManager

/-! Embedding of src/proxy-manager.js `updateProxy` as a step sequence over the
state that claim C2 is about: the stored descriptor's `status` field and
whether the process manager holds a live running record for the name.  Each
potentially-throwing step of the source gets a boolean in `UpdateEnv` choosing
whether it throws on this run; the functions below apply the source's state
changes in source order and stop at the first throwing step, exactly as the
rethrowing catch blocks do. -/

/-- The persisted `status` label of a stored descriptor. -/
inductive ProxyStatus where
  | running
  | stopped
  deriving DecidableEq, Repr

/-- The slice of registry + supervisor state that `updateProxy` touches for one
proxy name: its stored `status` label and whether `processManager` has a live
running record (`getProcessStatus(name).status === 'running'`). -/
structure ManagerState where
  status : ProxyStatus
  procLive : Bool
  deriving DecidableEq, Repr

/-- Which steps of the update sequence throw on this run. -/
structure UpdateEnv where
  /-- `ConfigValidator.validateProxyConfig` reports the descriptor invalid. -/
  validationFails : Bool := false
  /-- `processManager.stopProxy` (inside `this.stopProxy`) throws. -/
  procStopFails : Bool := false
  /-- `saveProxies` inside `this.stopProxy` throws. -/
  persistAfterStopFails : Bool := false
  /-- `configManager.generateConfig` throws. -/
  generateFails : Bool := false
  /-- `configManager.saveConfig` throws. -/
  saveConfigFails : Bool := false
  /-- `saveProxies` after storing the updated descriptor throws. -/
  persistUpdateFails : Bool := false
  /-- `processManager.startProxy` (inside `this.startProxy`) throws. -/
  procStartFails : Bool := false
  /-- `saveProxies` inside `this.startProxy` throws. -/
  persistAfterStartFails : Bool := false
  deriving DecidableEq, Repr

/-- src/proxy-manager.js `stopProxy` body (for a registered name): stop the
process, then set `status = 'stopped'` and persist.  If `processManager.
stopProxy` throws, nothing has been changed yet; if persisting throws, the
status field has already been updated. -/
def stopProxy (env : UpdateEnv) (st : ManagerState) : ManagerState × Bool :=
  if env.procStopFails then (st, false)
  else
    let st := { st with procLive := false, status := ProxyStatus.stopped }
    if env.persistAfterStopFails then (st, false) else (st, true)

/-- src/proxy-manager.js `startProxy` body (for a registered name): start the
process, then set `status = 'running'` and persist.  A failed
`processManager.startProxy` deletes its own live record and rethrows before
the status field is touched. -/
def startProxy (env : UpdateEnv) (st : ManagerState) : ManagerState × Bool :=
  if env.procStartFails then (st, false)
  else
    let st := { st with procLive := true, status := ProxyStatus.running }
    if env.persistAfterStartFails then (st, false) else (st, true)

/-- The tail of `updateProxy` after the initial stop: regenerate and save the
engine config, store the descriptor with `status: 'stopped'` and persist, then
restart if the proxy was running before the update. -/
def updateProxyRest (env : UpdateEnv) (wasRunning : Bool) (st : ManagerState) :
    ManagerState × Bool :=
  if env.generateFails then (st, false)
  else if env.saveConfigFails then (st, false)
  else
    let st2 : ManagerState := { st with status := ProxyStatus.stopped }
    if env.persistUpdateFails then (st2, false)
    else if wasRunning then startProxy env st2
    else (st2, true)

/-- src/proxy-manager.js `updateProxy` (for a registered name): validate; stop
first if running; regenerate and save the engine config; store the descriptor
with `status: 'stopped'` and persist; restart if it was running before.  Every
catch block rethrows, so the sequence stops at the first failing step. -/
def updateProxy (env : UpdateEnv) (st : ManagerState) : ManagerState × Bool :=
  if env.validationFails then (st, false)
  else if st.procLive then
    let stopped := stopProxy env st
    if stopped.2 then updateProxyRest env true stopped.1
    else (stopped.1, false)
  else updateProxyRest env false st

end ProxyManager

namespace XRayDownloader

/-! Embedding of src/unnamed/part_000 `downloadAndInstall` (the current
snapshot, lines 523-631) at the granularity claim C6 is about.  Network,
cache and extraction are collapsed to success/failure switches; what matters
is the order of the post-extraction steps: the source calls `saveVersionInfo`
BEFORE verifying that the executable, `geoip.dat` and `geosite.dat` exist. -/

/-- The resolved `path.join(this.binDir, this.getExecutableName())`, abstracted
as a fixed string (platform detection is ambient). -/
def executablePath : String := "bin/xray"

/-- One run's environment for `downloadAndInstall`. -/
structure InstallEnv where
  /-- `release.tag_name.replace(/^v/, '')` of the fetched latest release. -/
  latestVersion : String
  /-- `getCurrentVersion()` (version file or binary query), `none` if unknown. -/
  currentVersion : Option String
  /-- the executable already exists before the run (early-return path). -/
  exeExistsBefore : Bool
  /-- the download (or cache hit) step succeeds. -/
  downloadOk : Bool
  /-- `extractFile` succeeds. -/
  extractOk : Bool
  /-- the executable exists after extraction. -/
  exeAfterExtract : Bool
  /-- `geoip.dat` exists after extraction. -/
  geoipAfterExtract : Bool
  /-- `geosite.dat` exists after extraction. -/
  geositeAfterExtract : Bool
  /-- `getInstalledVersion(executablePath)` reports a version. -/
  versionReported : Bool
  deriving DecidableEq, Repr

/-- The persisted `.version` record (its `version` field), `none` if absent. -/
structure InstallState where
  versionRecord : Option String
  deriving DecidableEq, Repr

/-- The `!forceUpdate` early-return test of `downloadAndInstall`: skip the
download when a current version is recorded, it is not older than the latest
release, and the executable is present. -/
def upToDateSkip (env : InstallEnv) (forceUpdate : Bool) : Bool :=
  if forceUpdate then false
  else
    match env.currentVersion with
    | some cv => decide (compareVersions env.latestVersion cv ≤ 0) && env.exeExistsBefore
    | none => false

/-- src/unnamed/part_000 `downloadAndInstall`: returns the persisted version
record after the run together with the result (`ok` the executable path, or
the thrown error message). -/
def downloadAndInstall (env : InstallEnv) (forceUpdate : Bool) (st : InstallState) :
    InstallState × Except String String :=
  if upToDateSkip env forceUpdate then (st, Except.ok executablePath)
  else if !env.downloadOk then (st, Except.error "下载失败")
  else if !env.extractOk then (st, Except.error "解压失败")
  else
    let st := { st with versionRecord := some env.latestVersion }
    if env.exeAfterExtract then
      if !env.geoipAfterExtract then (st, Except.error "安装验证失败：geoip.dat 文件不存在")
      else if !env.geositeAfterExtract then (st, Except.error "安装验证失败：geosite.dat 文件不存在")
      else if env.versionReported then (st, Except.ok executablePath)
      else (st, Except.error "安装验证失败：无法获取版本信息")
    else (st, Except.error "安装验证失败：可执行文件不存在")

end XRayDownloader

namespace XRayLogManager

/-! Embedding of src/utils/xray-log-manager.js.  The `logs` map is an ordered
association list (`Map` iteration order is insertion order).  ISO timestamp
strings compare like their creation order, so timestamps are modelled as
`Nat` tick counts supplied by the caller. -/

/-- One log entry. -/
structure LogEntry where
  timestamp : Nat
  level : String
  message : String
  source : String
  proxyName : String
  deriving DecidableEq, Repr

/-- The log-manager state: per-proxy buckets plus the two caps. -/
structure State where
  logs : List (String × List LogEntry)
  maxLogsPerProxy : Nat
  maxTotalLogs : Nat

/-- src/utils/xray-log-manager.js `parseLogLevel`: an explicit known level tag
wins; otherwise keyword heuristics on the lower-cased message. -/
def parseLogLevel (level : Option String) (message : String) : String :=
  match level with
  | some l =>
    if ["debug", "info", "warn", "error"].contains l then l
    else parseLogLevelInfer message
  | none => parseLogLevelInfer message
where
  /-- the keyword-heuristics fallback of `parseLogLevel`. -/
  parseLogLevelInfer (message : String) : String :=
    let lowerMessage := jsToLowerCase message
    if jsIncludes lowerMessage "error" || jsIncludes lowerMessage "failed"
        || jsIncludes lowerMessage "fail" then "error"
    else if jsIncludes lowerMessage "warn" || jsIncludes lowerMessage "warning" then "warn"
    else if jsIncludes lowerMessage "debug" then "debug"
    else "info"

/-- Insertion into a list sorted by `lt`, after existing equal keys (JS
`Array.prototype.sort` is stable). -/
def insertByKey {α : Type} (lt : α → α → Bool) (x : α) : List α → List α
  | [] => [x]
  | y :: ys => if lt x y then x :: y :: ys else y :: insertByKey lt x ys

/-- Stable sort by `lt` (insertion sort). -/
def sortByKey {α : Type} (lt : α → α → Bool) (l : List α) : List α :=
  l.foldl (fun acc x => insertByKey lt x acc) []

/-- The sort key `a[1][0]?.timestamp || ''` of `limitTotalLogs`: the oldest
timestamp of a bucket, with an empty bucket sorting first. -/
def oldestKeyLt (a b : List LogEntry) : Bool :=
  match (a.head?).map LogEntry.timestamp, (b.head?).map LogEntry.timestamp with
  | none, none => false
  | none, some _ => true
  | some _, none => false
  | some x, some y => x < y

/-- Total number of retained entries across all proxies. -/
def totalLogCount (m : State) : Nat :=
  m.logs.foldl (fun acc p => acc + p.2.length) 0

/-- src/utils/xray-log-manager.js `limitTotalLogs`: while the global cap is
exceeded, remove up to 100 of the oldest entries from the proxies with the
oldest heads, deleting buckets that become empty. -/
def limitTotalLogs (m : State) : State :=
  let totalLogs := totalLogCount m
  if m.maxTotalLogs < totalLogs then
    let sortedProxies := sortByKey (fun a b => oldestKeyLt a.2 b.2) m.logs
    let removals :=
      (sortedProxies.foldl
        (fun acc entry =>
          if acc.2 ≤ m.maxTotalLogs then acc
          else
            let removeCount := min 100 entry.2.length
            ((entry.1, removeCount) :: acc.1, acc.2 - removeCount))
        (([] : List (String × Nat)), totalLogs)).1
    { m with logs := m.logs.filterMap (fun p =>
        match removals.lookup p.1 with
        | some rc =>
          let pl := p.2.drop rc
          if pl.isEmpty then none else some (p.1, pl)
        | none => some p) }
  else m

/-- src/utils/xray-log-manager.js `addLog`: classify, append to the proxy's
bucket (creating it if needed), `shift` the oldest entry if the per-proxy cap
is exceeded, then enforce the global cap. -/
def addLog (m : State) (proxyName : String) (level : Option String)
    (message : String) (source : String) (timestamp : Nat) : State :=
  let logEntry : LogEntry :=
    { timestamp := timestamp
      level := parseLogLevel level message
      message := jsTrim message
      source := source
      proxyName := proxyName }
  let logs :=
    if (m.logs.lookup proxyName).isSome then m.logs
    else m.logs ++ [(proxyName, [])]
  let logs := logs.map (fun p =>
    if p.1 = proxyName then
      let proxyLogs := p.2 ++ [logEntry]
      let proxyLogs :=
        if m.maxLogsPerProxy < proxyLogs.length then proxyLogs.drop 1 else proxyLogs
      (p.1, proxyLogs)
    else p)
  limitTotalLogs { m with logs := logs }

/-- A fresh log manager with the source's caps (1000 per proxy, 5000 total). -/
def initialState : State :=
  { logs := [], maxLogsPerProxy := 1000, maxTotalLogs := 5000 }

end XRayLogManager

/-! ## Projection helpers over generation results -/

/-- The generated config of a successful `generateConfig` run. -/
def okConfig : Except String XRayConfig → Option XRayConfig
  | Except.ok c => some c
  | Except.error _ => none

/-- The outbound of a generated config, when there is exactly one. -/
def singleOutbound (r : Except String XRayConfig) : Option Outbound :=
  (okConfig r).bind fun cfg =>
    match cfg.outbounds with
    | [ob] => some ob
    | _ => none

/-- The inbound of a generated config, when there is exactly one. -/
def singleInbound (r : Except String XRayConfig) : Option Inbound :=
  (okConfig r).bind fun cfg =>
    match cfg.inbounds with
    | [ib] => some ib
    | _ => none

/-- The stream-settings block of the single outbound. -/
def generatedStream (r : Except String XRayConfig) : Option StreamSettingsOut :=
  (singleOutbound r).bind Outbound.streamSettings

/-- The `tlsSettings` of the single outbound's stream settings. -/
def generatedTls (r : Except String XRayConfig) : Option TlsSettings :=
  (generatedStream r).bind StreamSettingsOut.tlsSettings

/-- The `xhttpSettings` of the single outbound's stream settings. -/
def generatedXhttp (r : Except String XRayConfig) : Option XhttpSettings :=
  (generatedStream r).bind StreamSettingsOut.xhttpSettings

/-- Propositional equality on `Except` results is decidable componentwise. -/
instance {e a : Type} [DecidableEq e] [DecidableEq a] : DecidableEq (Except e a) := fun x y =>
  match x, y with
  | Except.ok v, Except.ok w => decidable_of_iff (v = w) (by simp)
  | Except.ok _, Except.error _ => isFalse (by simp)
  | Except.error _, Except.ok _ => isFalse (by simp)
  | Except.error v, Except.error w => decidable_of_iff (v = w) (by simp)

/-- A list with a member is not empty. -/
theorem mem_isEmpty_false {α : Type} {a : α} {l : List α} (h : a ∈ l) : l.isEmpty = false := by
  cases l with
  | nil => cases h
  | cons x xs => rfl

/-! ## Claim C8 -/

/-- Claim C8: `compareVersions` compares numerically field by field with
missing fields treated as 0: `1.10.0 > 1.9.9`, `1.2 = 1.2.0`,
`2.0.0 < 2.0.0.1`. -/
theorem compareVersions_spec :
    0 < XRayDownloader.compareVersions "1.10.0" "1.9.9"
    ∧ XRayDownloader.compareVersions "1.2" "1.2.0" = 0
    ∧ XRayDownloader.compareVersions "2.0.0" "2.0.0.1" < 0 := by
  decide

/-! ## Claim C3 -/

/-- Claim C3 (code-bug evidence): after a first successful `startProxy "mc1"`
the live map is `["mc1"]`; a second `startProxy "mc1"` is rejected, but the
shared catch handler runs `this.processes.delete(name)`, so the map afterwards
is EMPTY — the first call's live record has been destroyed while its process
is still running, instead of the map being left unchanged with exactly one
record. -/
theorem startProxy_second_call_clears_live_record :
    ProcessManager.startProxy [] "mc1" true false = (["mc1"], true)
    ∧ ProcessManager.startProxy ["mc1"] "mc1" true false = ([], false) := by
  decide

/-! ## Claim C2 -/

/-- Claim C2: whenever `updateProxy` on a running proxy fails with the process
no longer running (the process was stopped and not successfully restarted),
the stored descriptor's status is `stopped` — the registry never keeps a
`running` label for a proxy whose process is gone. -/
theorem updateProxy_no_stale_running_label (env : ProxyManager.UpdateEnv)
    (st : ProxyManager.ManagerState)
    (hrun : st.procLive = true)
    (hfail : (ProxyManager.updateProxy env st).2 = false)
    (hdead : (ProxyManager.updateProxy env st).1.procLive = false) :
    (ProxyManager.updateProxy env st).1.status = ProxyManager.ProxyStatus.stopped := by
  have rest :
      ∀ (w : Bool) (st2 : ProxyManager.ManagerState),
        st2.status = ProxyManager.ProxyStatus.stopped →
          (ProxyManager.updateProxyRest env w st2).1.procLive = false →
            (ProxyManager.updateProxyRest env w st2).1.status = ProxyManager.ProxyStatus.stopped := by
    intro w st2 hs
    unfold ProxyManager.updateProxyRest ProxyManager.startProxy
    split_ifs <;> simp_all
  unfold ProxyManager.updateProxy at hfail hdead ⊢
  unfold ProxyManager.stopProxy at hfail hdead ⊢
  split_ifs at hfail hdead ⊢ <;> simp_all [rest]

/-- Witness for `updateProxy_no_stale_running_label`: a run on a running proxy
where regenerating the config fails after the stop. -/
theorem updateProxy_no_stale_running_label_witness :
    (ProxyManager.updateProxy { generateFails := true }
        { status := ProxyManager.ProxyStatus.running, procLive := true }).1.status
      = ProxyManager.ProxyStatus.stopped :=
  updateProxy_no_stale_running_label { generateFails := true }
    { status := ProxyManager.ProxyStatus.running, procLive := true }
    (by decide) (by decide) (by decide)

/-! ## Claim C6 -/

/-- A run of `downloadAndInstall` in which extraction succeeds but `geoip.dat`
is missing afterwards. -/
def c6FailEnv : XRayDownloader.InstallEnv :=
  { latestVersion := "1.8.6"
    currentVersion := some "1.8.4"
    exeExistsBefore := false
    downloadOk := true
    extractOk := true
    exeAfterExtract := true
    geoipAfterExtract := false
    geositeAfterExtract := true
    versionReported := true }

/-- Claim C6 counterexample: on a run where `geoip.dat` is missing after
extraction, the install does fail, but the persisted version record already
records the NEW version — `saveVersionInfo` runs before the post-extraction
verification, so a partial-success state remains, contrary to the claim. -/
theorem downloadAndInstall_version_record_counterexample :
    (XRayDownloader.downloadAndInstall c6FailEnv false { versionRecord := some "1.8.4" }).2
        = Except.error "安装验证失败：geoip.dat 文件不存在"
    ∧ (XRayDownloader.downloadAndInstall c6FailEnv false { versionRecord := some "1.8.4" }).1.versionRecord
        = some "1.8.6" := by
  decide

/-- Claim C6 (amended): on any run that reaches extraction, a missing
post-extraction artifact (executable, `geoip.dat`, `geosite.dat`, or an
executable that cannot report its version) is a fatal install error, and a
fully verified install returns the executable path; however the
`InstalledVersionRecord` is persisted BEFORE the verification, so after every
such run — failed or not — it records the just-fetched latest version. -/
theorem downloadAndInstall_verification (env : XRayDownloader.InstallEnv)
    (forceUpdate : Bool) (st : XRayDownloader.InstallState)
    (hskip : XRayDownloader.upToDateSkip env forceUpdate = false)
    (hdl : env.downloadOk = true) (hex : env.extractOk = true) :
    ((env.exeAfterExtract = false ∨ env.geoipAfterExtract = false
        ∨ env.geositeAfterExtract = false ∨ env.versionReported = false) →
      ∃ e, (XRayDownloader.downloadAndInstall env forceUpdate st).2 = Except.error e)
    ∧ (env.exeAfterExtract = true → env.geoipAfterExtract = true →
        env.geositeAfterExtract = true → env.versionReported = true →
        (XRayDownloader.downloadAndInstall env forceUpdate st).2
          = Except.ok XRayDownloader.executablePath)
    ∧ (XRayDownloader.downloadAndInstall env forceUpdate st).1.versionRecord
        = some env.latestVersion := by
  unfold XRayDownloader.downloadAndInstall
  simp only [hskip, hdl, hex]
  cases hA : env.exeAfterExtract <;> cases hB : env.geoipAfterExtract <;>
    cases hC : env.geositeAfterExtract <;> cases hD : env.versionReported <;>
      simp_all

/-! ## Claims C1, C4, C5, C10 — configuration generation -/

/-- A valid vless descriptor whose streamSettings explicitly request
`allowInsecure: false` over TLS. -/
def c1Descriptor : ProxyConfig :=
  { name := some "mc1"
    address := some "example.com"
    port := some 443
    localPort := some 1080
    protocol := "vless"
    userId := some "3f2a8c1e-4b7d-4e2a-8b9c-1d2e3f4a5b6c"
    streamSettings := some { security := some "tls", allowInsecure := some false } }

/-- Claim C1 counterexample: the descriptor explicitly chooses
`allowInsecure: false` and has address `example.com`, yet the generated TLS
parameters carry `allowInsecure = true` (the source hard-codes it) and an
absent `serverName` (the fallback reads `streamSettings.address`, not the
descriptor's top-level address). -/
theorem generateConfig_allowInsecure_counterexample :
    c1Descriptor.streamSettings.map StreamConfig.allowInsecure = some (some false)
    ∧ c1Descriptor.address = some "example.com"
    ∧ (generatedTls (ConfigManager.generateConfig c1Descriptor "u").2).map
        TlsSettings.allowInsecure = some true
    ∧ (generatedTls (ConfigManager.generateConfig c1Descriptor "u").2).map
        TlsSettings.serverName = some none := by
  decide

/-- Claim C1 (amended): for every streamSettings whose `security` is `"tls"`
or falsy, `createStreamSettings` sets `security` to tls and attaches TLS
parameters whose `allowInsecure` is always `true` — the descriptor's explicit
boolean choice is ignored — and whose `serverName` falls back to the
streamSettings' own `address` field (absent when neither it nor `serverName`
is given), not to the descriptor's top-level address. -/
theorem createStreamSettings_tls_params (sc : StreamConfig)
    (h : sc.security = some "tls" ∨ jsTruthyStr sc.security = false) :
    (ConfigManager.createStreamSettings sc).security = some "tls"
    ∧ (ConfigManager.createStreamSettings sc).tlsSettings
        = some { serverName := jsOrStr sc.serverName sc.address
                 allowInsecure := true
                 fingerprint := if jsTruthyStr sc.fingerprint then sc.fingerprint else none
                 alpn := match sc.alpn with
                         | some v => if jsTruthyJ v then some v else none
                         | none => none } := by
  have hcond : (sc.security = some "tls" || !(jsTruthyStr sc.security)) = true := by
    rcases h with h | h <;> simp [h]
  unfold ConfigManager.createStreamSettings
  split_ifs <;> exact ⟨rfl, rfl⟩

/-- Witness for `createStreamSettings_tls_params`. -/
theorem createStreamSettings_tls_params_witness :
    (ConfigManager.createStreamSettings
        { security := some "tls", serverName := some "sni.example" }).security = some "tls"
    ∧ (ConfigManager.createStreamSettings
        { security := some "tls", serverName := some "sni.example" }).tlsSettings
        = some { serverName := some "sni.example", allowInsecure := true
                 fingerprint := none, alpn := none } :=
  createStreamSettings_tls_params { security := some "tls", serverName := some "sni.example" }
    (Or.inl rfl)

/-- The C1 descriptor with an upper-case protocol tag. -/
def c4UpperDescriptor : ProxyConfig :=
  { c1Descriptor with protocol := "VLESS" }

/-- Claim C4 counterexample: `"VLESS"` is not one of the protocol values
vless, vmess, trojan, yet `generateConfig` accepts it rather than failing —
the switch lower-cases the protocol first. -/
theorem generateConfig_protocol_case_counterexample :
    c4UpperDescriptor.protocol = "VLESS"
    ∧ (["vless", "vmess", "trojan"].contains c4UpperDescriptor.protocol) = false
    ∧ (okConfig (ConfigManager.generateConfig c4UpperDescriptor "u").2).isSome = true := by
  decide

/-- Claim C4 (amended): for every descriptor whose protocol lower-cases to
vless, vmess or trojan, `generateConfig` succeeds with exactly one outbound,
tagged with the lower-cased protocol, and exactly one inbound whose port is
the descriptor's `localPort`; for every other protocol value it fails with the
unsupported-protocol error. -/
theorem generateConfig_protocol_dispatch (d : ProxyConfig) (u : String) :
    ((jsToLowerCase d.protocol = "vless" ∨ jsToLowerCase d.protocol = "vmess"
        ∨ jsToLowerCase d.protocol = "trojan") →
      (okConfig (ConfigManager.generateConfig d u).2).map
          (fun cfg => (cfg.outbounds.map Outbound.protocol, cfg.inbounds.map Inbound.port))
        = some ([jsToLowerCase d.protocol], [d.localPort]))
    ∧ ((jsToLowerCase d.protocol ≠ "vless" ∧ jsToLowerCase d.protocol ≠ "vmess"
        ∧ jsToLowerCase d.protocol ≠ "trojan") →
      (ConfigManager.generateConfig d u).2
        = Except.error ("不支持的协议类型: " ++ d.protocol)) := by
  simp only [ConfigManager.generateConfig]
  split_ifs <;>
    simp_all [okConfig, ConfigManager.createVLESSOutbound, ConfigManager.createVMessOutbound,
      ConfigManager.createTrojanOutbound, ConfigManager.createBaseConfig,
      ConfigManager.createInbound]

/-- Witness for `generateConfig_protocol_dispatch`: a vless descriptor is
accepted with the right outbound tag and inbound port; a `socks5` descriptor
is rejected with the unsupported-protocol error. -/
theorem generateConfig_protocol_dispatch_witness :
    (okConfig (ConfigManager.generateConfig c1Descriptor "u").2).map
        (fun cfg => (cfg.outbounds.map Outbound.protocol, cfg.inbounds.map Inbound.port))
      = some (["vless"], [some 1080])
    ∧ (ConfigManager.generateConfig { protocol := "socks5" } "u").2
        = Except.error ("不支持的协议类型: " ++ "socks5") := by
  constructor
  · exact (generateConfig_protocol_dispatch c1Descriptor "u").1 (Or.inl (by decide))
  · exact (generateConfig_protocol_dispatch { protocol := "socks5" } "u").2 (by decide)

/-- A valid vless descriptor whose streamSettings request a ws transport. -/
def c5Descriptor : ProxyConfig :=
  { name := some "mc1"
    address := some "example.com"
    port := some 443
    localPort := some 1080
    protocol := "vless"
    userId := some "3f2a8c1e-4b7d-4e2a-8b9c-1d2e3f4a5b6c"
    streamSettings := some { network := some "ws", path := some "/chat" } }

/-- Claim C5 counterexample: `generateConfig` is not free of side effects on
its input — after the call the descriptor differs from what was passed in
(its streamSettings' `network` has been overwritten with `"xhttp"`). -/
theorem generateConfig_mutates_input_counterexample :
    (ConfigManager.generateConfig c5Descriptor "u").1 ≠ c5Descriptor := by
  intro h
  exact absurd
    (congrArg (fun d : ProxyConfig => d.streamSettings.map StreamConfig.network) h)
    (by decide)

/-- The descriptor as `generateConfig` leaves it: streamSettings created if
absent, with `network`, `security`, `mode` and `path` overwritten. -/
def mutatedDescriptor (d : ProxyConfig) : ProxyConfig :=
  { d with streamSettings := some (ConfigManager.forceStreamDefaults (d.streamSettings.getD {})) }

/-- Claim C5 (amended): with a truthy `userId` the result is deterministic —
the drawn UUID is never consulted, so identical inputs give identical configs
— but the input descriptor is mutated: its streamSettings (created if absent)
leave the call with `network`, `security`, `mode` and `path` overwritten. -/
theorem generateConfig_deterministic_but_mutates (d : ProxyConfig) (u1 u2 : String)
    (h : jsTruthyStr d.userId = true) :
    (ConfigManager.generateConfig d u1).2 = (ConfigManager.generateConfig d u2).2
    ∧ (ConfigManager.generateConfig d u1).1 = mutatedDescriptor d := by
  obtain ⟨uid, huid, hne⟩ : ∃ uid, d.userId = some uid ∧ uid ≠ "" := by
    cases hx : d.userId with
    | none => simp [jsTruthyStr, hx] at h
    | some s => exact ⟨s, rfl, by simpa [jsTruthyStr, hx] using h⟩
  constructor
  · simp only [ConfigManager.generateConfig]
    split_ifs <;>
      simp [ConfigManager.createVLESSOutbound, ConfigManager.createVMessOutbound,
        ConfigManager.createTrojanOutbound, jsOrStrD, huid, hne]
  · simp only [ConfigManager.generateConfig, mutatedDescriptor]
    split_ifs <;> rfl

/-- Witness for `generateConfig_deterministic_but_mutates`. -/
theorem generateConfig_deterministic_but_mutates_witness :
    (ConfigManager.generateConfig c5Descriptor "uuid-a").2
      = (ConfigManager.generateConfig c5Descriptor "uuid-b").2
    ∧ (ConfigManager.generateConfig c5Descriptor "uuid-a").1 = mutatedDescriptor c5Descriptor :=
  generateConfig_deterministic_but_mutates c5Descriptor "uuid-a" "uuid-b" (by decide)

/-- After the four fields are forced, the generated stream settings use
network xhttp. -/
theorem createStreamSettings_forced_network (sc : StreamConfig) :
    (ConfigManager.createStreamSettings (ConfigManager.forceStreamDefaults sc)).network
      = "xhttp" := by
  unfold ConfigManager.createStreamSettings ConfigManager.forceStreamDefaults
  simp [jsOrStrD]

/-- After the four fields are forced, the generated stream settings use
security tls. -/
theorem createStreamSettings_forced_security (sc : StreamConfig) :
    (ConfigManager.createStreamSettings (ConfigManager.forceStreamDefaults sc)).security
      = some "tls" := by
  unfold ConfigManager.createStreamSettings ConfigManager.forceStreamDefaults
  simp [jsTruthyStr]

/-- After the four fields are forced, the generated xhttp settings use mode
auto and path /mcproxy. -/
theorem createStreamSettings_forced_xhttp (sc : StreamConfig) :
    ((ConfigManager.createStreamSettings (ConfigManager.forceStreamDefaults sc)).xhttpSettings).map
        (fun x => (x.mode, x.path)) = some ("auto", "/mcproxy") := by
  unfold ConfigManager.createStreamSettings ConfigManager.forceStreamDefaults
  simp [jsOrStrD, jsTruthyStr]

/-- Claim C10: every accepted descriptor yields a config whose single inbound
is a dokodemo-door listener forwarding to the descriptor's remote address and
port over tcp, and whose single outbound's stream settings use network
`xhttp`, security `tls`, xhttp mode `auto` and path `/mcproxy` — whatever
network/security/mode/path the caller put in the descriptor's streamSettings. -/
theorem generateConfig_forced_transport (d : ProxyConfig) (u : String)
    (h : (okConfig (ConfigManager.generateConfig d u).2).isSome = true) :
    (singleInbound (ConfigManager.generateConfig d u).2).map
        (fun i => (i.protocol, i.settings.address, i.settings.port, i.settings.network))
      = some ("dokodemo-door", d.address, d.port, "tcp")
    ∧ (generatedStream (ConfigManager.generateConfig d u).2).map
        (fun ss => (ss.network, ss.security)) = some ("xhttp", some "tls")
    ∧ (generatedXhttp (ConfigManager.generateConfig d u).2).map
        (fun x => (x.mode, x.path)) = some ("auto", "/mcproxy") := by
  simp only [ConfigManager.generateConfig] at h ⊢
  split_ifs at h ⊢ <;>
    simp_all [okConfig, singleInbound, singleOutbound, generatedStream, generatedXhttp,
      ConfigManager.createInbound, ConfigManager.createVLESSOutbound,
      ConfigManager.createVMessOutbound, ConfigManager.createTrojanOutbound,
      ConfigManager.createBaseConfig, createStreamSettings_forced_network,
      createStreamSettings_forced_security, createStreamSettings_forced_xhttp]

/-- Witness for `generateConfig_forced_transport`: the C1 descriptor (which
asked for default transport apart from TLS) gets the forced inbound and
transport. -/
theorem generateConfig_forced_transport_witness :
    (singleInbound (ConfigManager.generateConfig c1Descriptor "u").2).map
        (fun i => (i.protocol, i.settings.address, i.settings.port, i.settings.network))
      = some ("dokodemo-door", some "example.com", some 443, "tcp")
    ∧ (generatedStream (ConfigManager.generateConfig c1Descriptor "u").2).map
        (fun ss => (ss.network, ss.security)) = some ("xhttp", some "tls")
    ∧ (generatedXhttp (ConfigManager.generateConfig c1Descriptor "u").2).map
        (fun x => (x.mode, x.path)) = some ("auto", "/mcproxy") :=
  generateConfig_forced_transport c1Descriptor "u" (by decide)

/-! ## Claim C7 -/

/-- Claim C7: on every descriptor with `port = 70000`, both validator
snapshots report the descriptor invalid and include their port-range
violation message among the collected errors, regardless of every other
field. -/
theorem validateProxyConfig_port_70000 (c : ProxyConfig) (h : c.port = some 70000) :
    ((ConfigValidator.validateProxyConfig c).isValid = false
      ∧ "远程端口无效（1-65535）" ∈ (ConfigValidator.validateProxyConfig c).errors)
    ∧ ((ConfigValidatorRoot.validateProxyConfig c).isValid = false
      ∧ "端口号必须是1-65535之间的整数" ∈ (ConfigValidatorRoot.validateProxyConfig c).errors) := by
  have h5 : "远程端口无效（1-65535）" ∈ (ConfigValidator.validateProxyConfig c).errors := by
    unfold ConfigValidator.validateProxyConfig
    rw [h]
    simp [ConfigValidator.isValidPort]
  have h7 : "端口号必须是1-65535之间的整数"
      ∈ (ConfigValidatorRoot.validateProxyConfig c).errors := by
    unfold ConfigValidatorRoot.validateProxyConfig
    rw [h]
    simp
  have hv5 : (ConfigValidator.validateProxyConfig c).isValid
      = (ConfigValidator.validateProxyConfig c).errors.isEmpty := rfl
  have hv7 : (ConfigValidatorRoot.validateProxyConfig c).isValid
      = (ConfigValidatorRoot.validateProxyConfig c).errors.isEmpty := rfl
  exact ⟨⟨hv5.trans (mem_isEmpty_false h5), h5⟩, ⟨hv7.trans (mem_isEmpty_false h7), h7⟩⟩

/-- A descriptor with out-of-range remote port 70000 and every other field
valid. -/
def c7Descriptor : ProxyConfig :=
  { name := some "mc1"
    address := some "example.com"
    port := some 70000
    localPort := some 1080
    protocol := "trojan"
    password := some "secret" }

/-- Witness for `validateProxyConfig_port_70000`. -/
theorem validateProxyConfig_port_70000_witness :
    ((ConfigValidator.validateProxyConfig c7Descriptor).isValid = false
      ∧ "远程端口无效（1-65535）" ∈ (ConfigValidator.validateProxyConfig c7Descriptor).errors)
    ∧ ((ConfigValidatorRoot.validateProxyConfig c7Descriptor).isValid = false
      ∧ "端口号必须是1-65535之间的整数"
          ∈ (ConfigValidatorRoot.validateProxyConfig c7Descriptor).errors) :=
  validateProxyConfig_port_70000 c7Descriptor rfl

/-! ## Claim C9 -/

/-- The entry `addLog` stores for the `t`-th line of the C9 scenario. -/
def c9Entry (t : Nat) : XRayLogManager.LogEntry :=
  { timestamp := t
    level := "info"
    message := "connection established"
    source := "stdout"
    proxyName := "mc1" }

/-- `n` successive `addLog` calls for proxy `"mc1"` on a fresh manager, with
tick `t` as the timestamp of the `t`-th call. -/
def insertLogs (n : Nat) : XRayLogManager.State :=
  (List.range n).foldl
    (fun m t => XRayLogManager.addLog m "mc1" (some "info") "connection established" "stdout" t)
    XRayLogManager.initialState

/-- `limitTotalLogs` leaves a manager within its global cap unchanged. -/
theorem limitTotalLogs_of_le (m : XRayLogManager.State)
    (h : XRayLogManager.totalLogCount m ≤ m.maxTotalLogs) :
    XRayLogManager.limitTotalLogs m = m := by
  unfold XRayLogManager.limitTotalLogs
  rw [if_neg (Nat.not_lt.mpr h)]

/-- Unfolding one `addLog` step of the C9 scenario on a single-bucket state. -/
theorem addLog_mc1_step (L : List XRayLogManager.LogEntry) (t : Nat) (hL : L.length ≤ 1000) :
    XRayLogManager.addLog
        { logs := [("mc1", L)], maxLogsPerProxy := 1000, maxTotalLogs := 5000 }
        "mc1" (some "info") "connection established" "stdout" t
      = { logs := [("mc1",
            if 1000 < L.length + 1 then (L ++ [c9Entry t]).drop 1 else L ++ [c9Entry t])]
          maxLogsPerProxy := 1000
          maxTotalLogs := 5000 } := by
  unfold XRayLogManager.addLog
  have hlk : List.lookup "mc1" [("mc1", L)] = some L := by simp [List.lookup]
  have he : ({ timestamp := t, level := XRayLogManager.parseLogLevel (some "info") "connection established", message := jsTrim "connection established", source := "stdout", proxyName := "mc1" } : XRayLogManager.LogEntry) = c9Entry t := rfl
  rw [limitTotalLogs_of_le]
  · simp [hlk, he, List.length_append]
  · simp [hlk, XRayLogManager.totalLogCount, List.length_append]
    split <;> simp [List.length_tail, List.length_append] <;> omega

/-- One fold step: inserting line `n` after lines `0..n-1`. -/
theorem insertLogs_succ (n : Nat) :
    insertLogs (n + 1)
      = XRayLogManager.addLog (insertLogs n) "mc1" (some "info") "connection established"
          "stdout" n := by
  unfold insertLogs
  rw [List.range_succ, List.foldl_append]
  rfl

/-- Closed form of the C9 scenario: after `n ≥ 1` insertions the single bucket
holds the entries for ticks `n - 1000 .. n - 1` in order. -/
theorem insertLogs_logs (n : Nat) (hn : 1 ≤ n) :
    insertLogs n
      = { logs := [("mc1", ((List.range n).drop (n - 1000)).map c9Entry)]
          maxLogsPerProxy := 1000
          maxTotalLogs := 5000 } := by
  induction n with
  | zero => omega
  | succ k ih =>
    by_cases hk : 1 ≤ k
    · rw [insertLogs_succ, ih hk]
      have hlen : (((List.range k).drop (k - 1000)).map c9Entry).length = k - (k - 1000) := by
        simp
      rw [addLog_mc1_step _ k (by omega)]
      by_cases hbig : 1000 ≤ k
      · have hcond : 1000 < (((List.range k).drop (k - 1000)).map c9Entry).length + 1 := by
          omega
        rw [if_pos hcond]
        simp only [XRayLogManager.State.mk.injEq, List.cons.injEq, Prod.mk.injEq, and_true,
          true_and]
        have hA : (k + 1) - 1000 = (k - 1000) + 1 := by omega
        rw [List.drop_append_of_le_length (by rw [hlen]; omega)]
        rw [List.range_succ, hA,
          List.drop_append_of_le_length (by simp [List.length_range]; omega),
          List.map_append]
        have hAB : List.drop 1 (List.map c9Entry (List.drop (k - 1000) (List.range k)))
            = List.map c9Entry (List.drop ((k - 1000) + 1) (List.range k)) := by
          rw [← List.map_drop, List.drop_drop]
        rw [hAB]
        simp
      · have hcond : ¬ 1000 < (((List.range k).drop (k - 1000)).map c9Entry).length + 1 := by
          omega
        rw [if_neg hcond]
        simp only [XRayLogManager.State.mk.injEq, List.cons.injEq, Prod.mk.injEq, and_true,
          true_and]
        have h1 : k - 1000 = 0 := by omega
        have h2 : k + 1 - 1000 = 0 := by omega
        rw [h1, h2, List.drop_zero, List.drop_zero, List.range_succ, List.map_append]
        simp
    · have hk0 : k = 0 := by omega
      subst hk0
      rfl

/-- Claim C9: inserting 1001 log lines for one proxy against the per-proxy cap
of 1000 retains exactly 1000 entries, and the retained timestamps are
`1..1000` — the oldest entry (timestamp 0, the first inserted) is the one
evicted. -/
theorem addLog_cap_evicts_oldest :
    ((insertLogs 1001).logs.lookup "mc1").map
        (fun l => (l.length, l.map XRayLogManager.LogEntry.timestamp))
      = some (1000, (List.range 1001).drop 1) := by
  rw [insertLogs_logs 1001 (by omega)]
  have hlk :
      List.lookup "mc1" [("mc1", ((List.range 1001).drop (1001 - 1000)).map c9Entry)]
        = some (((List.range 1001).drop (1001 - 1000)).map c9Entry) := by
    simp [List.lookup]
  rw [hlk]
  have hid : XRayLogManager.LogEntry.timestamp ∘ c9Entry = id := rfl
  simp [List.map_map, hid]

/-- Witness for `downloadAndInstall_verification`: a fresh, fully successful
install run persists the new version and returns the executable path. -/
theorem downloadAndInstall_verification_witness :
    (XRayDownloader.downloadAndInstall
        { latestVersion := "1.8.6", currentVersion := none, exeExistsBefore := false
          downloadOk := true, extractOk := true, exeAfterExtract := true
          geoipAfterExtract := true, geositeAfterExtract := true, versionReported := true }
        false { versionRecord := none }).2
      = Except.ok XRayDownloader.executablePath :=
  (downloadAndInstall_verification
    { latestVersion := "1.8.6", currentVersion := none, exeExistsBefore := false
      downloadOk := true, extractOk := true, exeAfterExtract := true
      geoipAfterExtract := true, geositeAfterExtract := true, versionReported := true }
    false { versionRecord := none }
    (by decide) (by decide) (by decide)).2.1 rfl rfl rfl rfl

end EdgeLink
